import Mathlib

/-!
Verification development for the nik-server repository: a shallow embedding of
the upload / integrity / retrieval pipeline (Express server in
`src/unnamed/part_000`, SQLite wrapper in `src/unnamed/part_001`, configuration
in `src/config.js`) together with theorems settling the specification claims.

External collaborators (the SQLite engine, Node's `crypto` and `fs` modules,
multer's multipart parser) are modelled by explicit state passing:
the filesystem is an association list of path/bytes pairs, the database is a
record of user and file rows, digests (`md5`, `sha256`) are opaque function
parameters, and clock reads (`Date.now`, SQLite `CURRENT_TIMESTAMP`) are
drawn from an explicit clock parameter.
-/

namespace NikServer

/-- Propositional equality on `Except` results is decidable componentwise;
used to evaluate concrete runs of the fallible operations below. -/
instance {ε α : Type} [DecidableEq ε] [DecidableEq α] : DecidableEq (Except ε α) := fun x y =>
  match x, y with
  | Except.ok a, Except.ok b =>
    if h : a = b then isTrue (by rw [h]) else isFalse (by intro hc; cases hc; exact h rfl)
  | Except.error a, Except.error b =>
    if h : a = b then isTrue (by rw [h]) else isFalse (by intro hc; cases hc; exact h rfl)
  | Except.ok _, Except.error _ => isFalse (by intro hc; cases hc)
  | Except.error _, Except.ok _ => isFalse (by intro hc; cases hc)

/-- A file's content: its sequence of bytes. -/
abbrev Bytes := List Nat

/-- The filesystem namespace for uploaded content: an association list from
path to bytes, most recent write first (a later write to the same path
shadows the earlier one, matching overwrite semantics). -/
abbrev Disk := List (String × Bytes)

/-- `fs.readFileSync` / the read half of `fs.existsSync`: the most recent
write to the path, or `none` when the path is absent. -/
def diskRead (d : Disk) (p : String) : Option Bytes :=
  match d with
  | [] => none
  | (q, b) :: rest => if q = p then some b else diskRead rest p

/-- A completed `fs` write of `b` at path `p` (multer's disk storage engine). -/
def diskWrite (d : Disk) (p : String) (b : Bytes) : Disk :=
  (p, b) :: d

/-! ## Configuration (`src/config.js`) -/

/-- A JavaScript value as observed through property access on the exported
configuration object: a string, a number, or `undefined`. -/
inductive JsValue where
  | str (s : String)
  | num (n : Nat)
  | undef
deriving DecidableEq, Repr

/-- The values parsed out of the `application-<env>.properties` file that the
exported configuration object is built from (`src/config.js` lines 27-34). -/
structure Props where
  uploadPathV : String
  maxFileSizeV : Nat
  maxFilesV : Nat
deriving DecidableEq, Repr

/-- `module.exports` of `src/config.js` (lines 30-35), viewed as JavaScript
property access: the object carries exactly the keys `uploadPath`,
`maxFileSize`, `maxFiles` and `env`; access to any other key — in
particular `databasePath` — yields `undefined`. -/
def configExport (env : String) (p : Props) : String → JsValue :=
  fun key =>
    if key = "uploadPath" then JsValue.str p.uploadPathV
    else if key = "maxFileSize" then JsValue.num p.maxFileSizeV
    else if key = "maxFiles" then JsValue.num p.maxFilesV
    else if key = "env" then JsValue.str env
    else JsValue.undef

/-- The value `config.databasePath` that `Database.init`
(`src/unnamed/part_001` lines 12-18) reads and passes to the directory
bootstrap `path.dirname(config.databasePath)` and to
`new sqlite3.Database(config.databasePath, ...)`. -/
def dbInitPathArg (env : String) (p : Props) : JsValue :=
  configExport env p "databasePath"

/-! ## Content Store admission checks (multer `fileFilter`, part_000 lines 46-65) -/

/-- A file part of the incoming multipart request, before storage. -/
structure ReqFile where
  fieldname : String
  originalname : String
  mimetype : String
  bytes : Bytes
deriving DecidableEq, Repr

/-- Suffix test on strings, used to embed the anchored extension regex
test `/\.(jpeg|jpg|png|gif|pdf|txt|doc|docx)$/i.test(name)`. -/
def strEndsWith (s suffix : String) : Bool :=
  List.isSuffixOf suffix.data s.data

/-- `String.prototype.toLowerCase()` over the string's characters. -/
def strLower (s : String) : String :=
  ⟨s.data.map Char.toLower⟩

/-- The extension alternatives of the `allowedExtensions` regex
(part_000 line 53), each with its leading literal dot. -/
def allowedExtensionsList : List String :=
  [".jpeg", ".jpg", ".png", ".gif", ".pdf", ".txt", ".doc", ".docx"]

/-- The full-string alternatives matched by the anchored `allowedMimetypes`
regex (part_000 line 54). -/
def allowedMimetypesList : List String :=
  ["image/jpeg", "image/jpg", "image/png", "image/gif",
   "application/pdf", "application/msword",
   "application/vnd.openxmlformats-officedocument.wordprocessingml.document",
   "text/plain"]

/-- `allowedExtensions.test(file.originalname.toLowerCase())`
(part_000 line 56): the lowercased original name ends with one of the
allowed extensions. -/
def extnameTest (originalname : String) : Bool :=
  allowedExtensionsList.any (fun e => strEndsWith (strLower originalname) e)

/-- `allowedMimetypes.test(file.mimetype)` (part_000 line 57): the declared
MIME type is exactly one of the allowed MIME strings. -/
def mimetypeTest (mimetype : String) : Bool :=
  allowedMimetypesList.any (fun m => m == mimetype)

/-- The multer `fileFilter` (part_000 lines 52-64): accept when both the
extension test and the MIME-type test pass, otherwise reject with the
descriptive error. -/
def fileFilter (f : ReqFile) : Except String Unit :=
  if mimetypeTest f.mimetype && extnameTest f.originalname then
    Except.ok ()
  else
    Except.error "Invalid file type. Only JPEG, PNG, GIF, PDF, TXT, DOC, DOCX are allowed."

/-- The curated extension/MIME pair list described by the specification's
admission rule ("must match a curated pair list covering image and common
document formats"). This definition follows the specification's words, for
comparison against the source-derived `fileFilter`; it pairs each allowed
extension with the MIME type(s) declaring that same format. -/
def specAllowedPairs : List (String × String) :=
  [(".jpeg", "image/jpeg"),
   (".jpg", "image/jpeg"), (".jpg", "image/jpg"),
   (".png", "image/png"),
   (".gif", "image/gif"),
   (".pdf", "application/pdf"),
   (".txt", "text/plain"),
   (".doc", "application/msword"),
   (".docx", "application/vnd.openxmlformats-officedocument.wordprocessingml.document")]

/-- A file's extension and MIME type form one of the specification's curated
pairs: the lowercased name ends with the pair's extension and the declared
MIME type is the pair's MIME type. -/
def matchesSpecPair (f : ReqFile) : Bool :=
  specAllowedPairs.any (fun pr => strEndsWith (strLower f.originalname) pr.1 && pr.2 == f.mimetype)

/-! ## Metadata Store (`src/unnamed/part_001`) -/

/-- A row of the `users` table (part_001 lines 29-38). -/
structure UserRow where
  id : Nat
  username : String
  email : String
  password_hash : String
deriving DecidableEq, Repr

/-- A row of the `files` table (part_001 lines 40-53); `uploaded_at` is the
SQLite `CURRENT_TIMESTAMP` clock value captured at insert time. -/
structure FileRow where
  id : Nat
  user_id : Nat
  original_name : String
  filename : String
  file_path : String
  file_size : Nat
  mime_type : String
  file_hash : String
  uploaded_at : Nat
deriving DecidableEq, Repr

/-- The SQLite database state: the two tables and their `AUTOINCREMENT`
counters. -/
structure Db where
  users : List UserRow
  files : List FileRow
  nextUserId : Nat
  nextFileId : Nat
deriving DecidableEq, Repr

/-- A failed SQLite statement, as distinguished by the orchestrator's error
mapping (part_000 line 104 tests for a `UNIQUE constraint failed` message). -/
inductive DbErr where
  | uniqueViolation
  | storeError
deriving DecidableEq, Repr

/-- `Database.createUser` (part_001 lines 72-83) together with the `UNIQUE`
constraints on `users.username` and `users.email` established by
`createTables` (part_001 lines 30-37): the insert is rejected with a
unique-constraint violation when either column collides with an existing
row, and otherwise appends a fresh row under the next auto-incremented id. -/
def createUser (db : Db) (username email passwordHash : String) :
    Db × Except DbErr UserRow :=
  if db.users.any (fun u => u.username == username || u.email == email) then
    (db, Except.error DbErr.uniqueViolation)
  else
    let row : UserRow := ⟨db.nextUserId, username, email, passwordHash⟩
    ({ db with users := db.users ++ [row], nextUserId := db.nextUserId + 1 },
     Except.ok row)

/-- `Database.getUserByUsername` (part_001 lines 85-96). -/
def getUserByUsername (db : Db) (username : String) : Option UserRow :=
  db.users.find? (fun u => u.username == username)

/-- `Database.getUserById` (part_001 lines 98-109). -/
def getUserById (db : Db) (id : Nat) : Option UserRow :=
  db.users.find? (fun u => u.id == id)

/-- `Database.createFile` (part_001 lines 111-134): appends a `files` row
under the next auto-incremented id, with `uploaded_at` defaulted to the
insert-time clock value `now` (the `DEFAULT CURRENT_TIMESTAMP` of
part_001 line 50). -/
def createFile (db : Db) (userId : Nat) (originalName filename filePath : String)
    (fileSize : Nat) (mimeType fileHash : String) (now : Nat) : Db × FileRow :=
  let row : FileRow :=
    ⟨db.nextFileId, userId, originalName, filename, filePath, fileSize, mimeType, fileHash, now⟩
  ({ db with files := db.files ++ [row], nextFileId := db.nextFileId + 1 }, row)

/-- The `ORDER BY uploaded_at DESC` comparison of part_001 line 138:
`a` comes no later than `b` in the output when `a`'s upload time is at
least `b`'s (most recent first). -/
def newestFirst (a b : FileRow) : Prop :=
  b.uploaded_at ≤ a.uploaded_at

instance : DecidableRel newestFirst :=
  fun a b => Nat.decLe b.uploaded_at a.uploaded_at

instance : IsTotal FileRow newestFirst :=
  ⟨fun a b => Nat.le_total b.uploaded_at a.uploaded_at⟩

instance : IsTrans FileRow newestFirst :=
  ⟨fun _ _ _ hab hbc => Nat.le_trans hbc hab⟩

/-- `Database.getFilesByUserId` (part_001 lines 136-147):
`SELECT * FROM files WHERE user_id = ? ORDER BY uploaded_at DESC`. -/
def getFilesByUserId (db : Db) (userId : Nat) : List FileRow :=
  List.insertionSort newestFirst (db.files.filter (fun f => f.user_id == userId))

/-- `Database.getFileByFilename` (part_001 lines 162-173). -/
def getFileByFilename (db : Db) (filename : String) : Option FileRow :=
  db.files.find? (fun f => f.filename == filename)

/-! ## HTTP responses -/

/-- A stored-file descriptor as returned by the upload response
(part_000 lines 177-185) and, with the same shape, by the file-listing
response (part_000 lines 215-223). -/
structure Descriptor where
  id : Nat
  originalName : String
  filename : String
  size : Nat
  mimetype : String
  hash : String
  uploadedAt : Nat
deriving DecidableEq, Repr

/-- The JSON body of a response, by shape. -/
inductive Body where
  | err (msg : String)
  | user (id : Nat) (username email : String)
  | uploaded (files : List Descriptor)
  | fileList (files : List Descriptor)
  | fileStream (originalName mimeType : String) (length : Nat) (bytes : Bytes)
deriving DecidableEq, Repr

/-- An HTTP response: status code and JSON body. -/
structure Response where
  status : Nat
  body : Body
deriving DecidableEq, Repr

/-! ## Registration and login endpoints (part_000 lines 89-136)

The `crypto.createHash('sha256')` digest is an external library; it enters the
model as an opaque function parameter `sha256h`, of which the endpoints use
only that registration and login apply the same deterministic function.
A missing or empty request field is modelled as the empty string, matching
the JavaScript falsiness test `!username` on an absent or empty value. -/

/-- `app.post('/api/register')` (part_000 lines 89-110): validate presence,
hash the password, attempt the insert, and map a unique-constraint failure
to the client-facing conflict response. -/
def register (sha256h : String → String) (db : Db)
    (username email password : String) : Db × Response :=
  if username = "" || email = "" || password = "" then
    (db, ⟨400, Body.err "Username, email, and password are required"⟩)
  else
    match createUser db username email (sha256h password) with
    | (db1, Except.ok u) => (db1, ⟨201, Body.user u.id u.username u.email⟩)
    | (db1, Except.error DbErr.uniqueViolation) =>
        (db1, ⟨400, Body.err "Username or email already exists"⟩)
    | (db1, Except.error DbErr.storeError) =>
        (db1, ⟨500, Body.err "Registration failed"⟩)

/-- `app.post('/api/login')` (part_000 lines 112-136): look the user up by
username, hash the presented password with the same function used at
registration, and compare against the stored digest. -/
def login (sha256h : String → String) (db : Db) (username password : String) : Response :=
  if username = "" || password = "" then
    ⟨400, Body.err "Username and password are required"⟩
  else
    match getUserByUsername db username with
    | none => ⟨401, Body.err "Invalid credentials"⟩
    | some u =>
      if u.password_hash = sha256h password then
        ⟨200, Body.user u.id u.username u.email⟩
      else
        ⟨401, Body.err "Invalid credentials"⟩

/-! ## Integrity hasher plumbing (part_000 line 165)

`crypto.createHash('md5')` is external and enters as an opaque digest
function `Bytes → Bytes`; `.digest('hex')` renders the digest bytes as a
lowercase hexadecimal string, embedded concretely below. -/

/-- The hexadecimal character for a value below 16, lowercase letters for
10 through 15 (`'0'` is code 48, `'a'` is code 97). -/
def hexDigit (n : Nat) : Char :=
  if n < 10 then Char.ofNat (48 + n) else Char.ofNat (87 + n)

/-- The two lowercase hex characters of one byte. -/
def byteToHex (b : Nat) : List Char :=
  [hexDigit (b / 16 % 16), hexDigit (b % 16)]

/-- `.digest('hex')`: the digest bytes rendered as a lowercase hex string. -/
def toHexLower (bs : Bytes) : String :=
  ⟨(bs.map byteToHex).flatten⟩

/-! ## Content Store write path (multer disk storage, part_000 lines 36-65, 138)

`upload.array('files', maxFiles)` runs as middleware before the route handler:
it filters and writes each incoming part in order. The generated unique
storage names (`fieldname-Date.now()-random.ext`, line 41-42) depend on the
clock and a random source, so they enter the model as an explicit list of
names, one per part. A part that fails the `fileFilter` aborts the middleware
with its error — parts already processed stay written on disk. -/

/-- A file descriptor as multer hands it to the route handler in `req.files`:
the declared metadata plus the generated storage name, the path written,
and the size of the bytes written. -/
structure MulterFile where
  fieldname : String
  originalname : String
  mimetype : String
  filename : String
  path : String
  size : Nat
deriving DecidableEq, Repr

/-- The destination path of a stored file: upload directory plus generated
name (part_000 lines 36-44). -/
def storagePath (uploadPath name : String) : String :=
  uploadPath ++ "/" ++ name

/-- The multer middleware pass over the request's parts: filter each part,
write the accepted ones to disk under their generated names, and abort on
the first rejected part (earlier writes persist). -/
def runMulter (uploadPath : String) :
    List ReqFile → List String → Disk → Disk × Except String (List MulterFile)
  | [], _, disk => (disk, Except.ok [])
  | f :: fs, names, disk =>
    match names with
    | [] => (disk, Except.error "no storage name available")
    | n :: ns =>
      match fileFilter f with
      | Except.error e => (disk, Except.error e)
      | Except.ok _ =>
        let p := storagePath uploadPath n
        match runMulter uploadPath fs ns (diskWrite disk p f.bytes) with
        | (disk2, Except.ok ms) =>
          (disk2, Except.ok (⟨f.fieldname, f.originalname, f.mimetype, n, p, f.bytes.length⟩ :: ms))
        | (disk2, Except.error e) => (disk2, Except.error e)

/-! ## Upload Orchestrator (part_000 lines 138-202) -/

/-- The per-file loop of the upload handler (part_000 lines 164-186): for the
`k`-th file, read the stored bytes back from disk (`fs.readFileSync`,
failure throws into the handler's catch), hash them, then insert the
metadata row (`dbFault k = true` models the insert's promise rejecting with
a store error) and build the response descriptor. The insert captures the
clock at `2*k`; the descriptor's `uploadedAt` (`new Date().toISOString()`,
line 184) captures the later clock read `2*k+1`. On failure the rows already
inserted for earlier files remain and `none` signals the catch block. -/
def processFiles (digest : Bytes → Bytes) (dbFault : Nat → Bool) (clock : Nat → Nat)
    (disk : Disk) (userId : Nat) :
    Nat → List MulterFile → Db → Db × Option (List Descriptor)
  | _, [], db => (db, some [])
  | k, f :: fs, db =>
    match diskRead disk f.path with
    | none => (db, none)
    | some bytes =>
      let fileHash := toHexLower (digest bytes)
      if dbFault k then (db, none)
      else
        match createFile db userId f.originalname f.filename f.path f.size f.mimetype
            fileHash (clock (2 * k)) with
        | (db1, row) =>
          let d : Descriptor :=
            ⟨row.id, f.originalname, f.filename, f.size, f.mimetype, fileHash, clock (2 * k + 1)⟩
          match processFiles digest dbFault clock disk userId (k + 1) fs db1 with
          | (db2, some ds) => (db2, some (d :: ds))
          | (db2, none) => (db2, none)

/-- The upload route handler body (part_000 lines 138-202), entered after the
multer middleware: check the user id, check for an empty batch, then run
the per-file pipeline; a per-file failure lands in the catch block's
generic 500 response. -/
def uploadHandler (digest : Bytes → Bytes) (dbFault : Nat → Bool) (clock : Nat → Nat)
    (disk : Disk) (userId : Option Nat) (files : List MulterFile) (db : Db) :
    Db × Response :=
  match userId with
  | none => (db, ⟨400, Body.err "User ID is required"⟩)
  | some uid =>
    match getUserById db uid with
    | none => (db, ⟨401, Body.err "Invalid user"⟩)
    | some _ =>
      if files.isEmpty then
        (db, ⟨400, Body.err "No files provided"⟩)
      else
        match processFiles digest dbFault clock disk uid 0 files db with
        | (db1, some ds) => (db1, ⟨201, Body.uploaded ds⟩)
        | (db1, none) => (db1, ⟨500, Body.err "File upload failed"⟩)

/-- The complete `POST /api/upload` route: the multer middleware first
(writing accepted parts to disk), then the handler; a middleware error
reaches the express error middleware (part_000 lines 286-294) as a
generic 500. -/
def uploadRoute (digest : Bytes → Bytes) (dbFault : Nat → Bool) (clock : Nat → Nat)
    (uploadPath : String) (names : List String) (userId : Option Nat)
    (reqFiles : List ReqFile) (disk : Disk) (db : Db) : Disk × Db × Response :=
  match runMulter uploadPath reqFiles names disk with
  | (disk1, Except.error _) => (disk1, db, ⟨500, Body.err "Internal server error"⟩)
  | (disk1, Except.ok ms) =>
    match uploadHandler digest dbFault clock disk1 userId ms db with
    | (db1, resp) => (disk1, db1, resp)

/-! ## Retrieval Service and listing (part_000 lines 204-279) -/

/-- `app.get('/api/users/:id/files')` (part_000 lines 204-231). -/
def listFiles (db : Db) (userId : Nat) : Response :=
  match getUserById db userId with
  | none => ⟨404, Body.err "User not found"⟩
  | some _ =>
    ⟨200, Body.fileList ((getFilesByUserId db userId).map (fun f =>
      ⟨f.id, f.original_name, f.filename, f.file_size, f.mime_type, f.file_hash,
       f.uploaded_at⟩))⟩

/-- `app.get('/api/download/:filename')` (part_000 lines 233-279): look up the
metadata record by storage name, verify the physical file exists on disk,
and stream it back under the original client-supplied name. -/
def download (db : Db) (disk : Disk) (filename : String) : Response :=
  match getFileByFilename db filename with
  | none => ⟨404, Body.err "File not found"⟩
  | some f =>
    match diskRead disk f.file_path with
    | none => ⟨404, Body.err "Physical file not found on server"⟩
    | some bytes => ⟨200, Body.fileStream f.original_name f.mime_type f.file_size bytes⟩

/-! ## Claim theorems -/

/-- C9: the configuration module exports only `uploadPath`, `maxFileSize`,
`maxFiles` and `env`, while the Metadata Store's initialization reads
`config.databasePath`; therefore for every environment and properties file
the database path used at initialization — the value handed to the
directory-bootstrap step — is `undefined`. -/
theorem config_databasePath_undefined (env : String) (p : Props) :
    (∀ key, configExport env p key ≠ JsValue.undef →
      key = "uploadPath" ∨ key = "maxFileSize" ∨ key = "maxFiles" ∨ key = "env") ∧
    dbInitPathArg env p = JsValue.undef := by
  constructor
  · intro key h
    simp only [configExport] at h
    split_ifs at h with h1 h2 h3 h4
    · exact Or.inl h1
    · exact Or.inr (Or.inl h2)
    · exact Or.inr (Or.inr (Or.inl h3))
    · exact Or.inr (Or.inr (Or.inr h4))
    · exact absurd rfl h
  · rfl

/-- Witness for C9 at a concrete environment and properties file. -/
theorem config_databasePath_undefined_witness :
    dbInitPathArg "local" ⟨"uploads", 10485760, 5⟩ = JsValue.undef :=
  (config_databasePath_undefined "local" ⟨"uploads", 10485760, 5⟩).2

/-- C4 counterexample: the file named `a.txt` declared with MIME type
`image/png` is accepted by the filter, although its extension and declared
MIME type do not form any curated extension/MIME pair. -/
theorem fileFilter_mismatched_pair_accepted :
    fileFilter ⟨"files", "a.txt", "image/png", [104]⟩ = Except.ok () ∧
    matchesSpecPair ⟨"files", "a.txt", "image/png", [104]⟩ = false := by
  decide

/-- C4 (amended): an uploaded file part is accepted exactly when its
lowercased name ends with one of the allowed extensions AND its declared
MIME type is one of the allowed MIME strings, the two checks being
independent of one another (the extension and the MIME type need not
describe the same format); a file failing either check is rejected with
the descriptive invalid-file-type error. -/
theorem fileFilter_characterization (f : ReqFile) :
    (fileFilter f = Except.ok () ↔
      (extnameTest f.originalname = true ∧ mimetypeTest f.mimetype = true)) ∧
    (fileFilter f = Except.ok () ∨
      fileFilter f = Except.error
        "Invalid file type. Only JPEG, PNG, GIF, PDF, TXT, DOC, DOCX are allowed.") := by
  constructor
  · constructor
    · intro h
      unfold fileFilter at h
      by_cases hc : (mimetypeTest f.mimetype && extnameTest f.originalname) = true
      · exact ⟨(Bool.and_eq_true _ _ |>.mp hc).2, (Bool.and_eq_true _ _ |>.mp hc).1⟩
      · rw [if_neg hc] at h
        exact absurd h (by simp)
    · intro ⟨he, hm⟩
      unfold fileFilter
      rw [if_pos (by rw [hm, he]; rfl)]
  · unfold fileFilter
    split_ifs
    · exact Or.inl rfl
    · exact Or.inr rfl

/-- Witness for C4's amended characterization: a matching extension and MIME
type are accepted. -/
theorem fileFilter_characterization_witness :
    fileFilter ⟨"files", "photo.png", "image/png", [1, 2]⟩ = Except.ok () :=
  (fileFilter_characterization ⟨"files", "photo.png", "image/png", [1, 2]⟩).1.mpr
    ⟨by decide, by decide⟩

/-- C6: a login with an unknown username and a login with a known username
but a wrong password produce the same observable response — status 401
with the generic invalid-credentials body — so the caller cannot tell
from the login result whether the username exists. -/
theorem login_no_username_enumeration (sha256h : String → String) (db : Db)
    (u1 p1 u2 p2 : String) (u : UserRow)
    (h1u : u1 ≠ "") (h1p : p1 ≠ "") (h2u : u2 ≠ "") (h2p : p2 ≠ "")
    (hno : getUserByUsername db u1 = none)
    (hyes : getUserByUsername db u2 = some u)
    (hpw : u.password_hash ≠ sha256h p2) :
    login sha256h db u1 p1 = ⟨401, Body.err "Invalid credentials"⟩ ∧
    login sha256h db u2 p2 = ⟨401, Body.err "Invalid credentials"⟩ ∧
    login sha256h db u1 p1 = login sha256h db u2 p2 := by
  have e1 : login sha256h db u1 p1 = ⟨401, Body.err "Invalid credentials"⟩ := by
    unfold login
    rw [if_neg (by simp [h1u, h1p]), hno]
  have e2 : login sha256h db u2 p2 = ⟨401, Body.err "Invalid credentials"⟩ := by
    unfold login
    rw [if_neg (by simp [h2u, h2p]), hyes]
    simp [hpw]
  exact ⟨e1, e2, e1.trans e2.symm⟩

/-- Witness for C6 at a concrete store: `bob` is unknown, `alice` exists with
a different password digest; both logins answer identically. -/
theorem login_no_username_enumeration_witness :
    login (fun s => s ++ "#h") ⟨[⟨1, "alice", "a@x.com", "pw1#h"⟩], [], 2, 1⟩ "bob" "pw1" =
      login (fun s => s ++ "#h") ⟨[⟨1, "alice", "a@x.com", "pw1#h"⟩], [], 2, 1⟩ "alice" "wrong" :=
  (login_no_username_enumeration (fun s => s ++ "#h")
    ⟨[⟨1, "alice", "a@x.com", "pw1#h"⟩], [], 2, 1⟩ "bob" "pw1" "alice" "wrong"
    ⟨1, "alice", "a@x.com", "pw1#h"⟩
    (by decide) (by decide) (by decide) (by decide)
    (by decide) (by decide) (by decide)).2.2

/-- C7: downloading a storage name with no metadata record answers with the
`File not found` not-found response, while a storage name whose record
exists but whose physical file is absent from the filesystem answers with
the distinct `Physical file not found on server` not-found response; the
two responses are distinguishable by the caller. -/
theorem download_distinct_not_found (db : Db) (disk : Disk) (n1 n2 : String) (f : FileRow)
    (h1 : getFileByFilename db n1 = none)
    (h2 : getFileByFilename db n2 = some f)
    (h3 : diskRead disk f.file_path = none) :
    download db disk n1 = ⟨404, Body.err "File not found"⟩ ∧
    download db disk n2 = ⟨404, Body.err "Physical file not found on server"⟩ ∧
    download db disk n1 ≠ download db disk n2 := by
  have e1 : download db disk n1 = ⟨404, Body.err "File not found"⟩ := by
    unfold download; rw [h1]
  have e2 : download db disk n2 = ⟨404, Body.err "Physical file not found on server"⟩ := by
    unfold download; rw [h2]; simp [h3]
  refine ⟨e1, e2, ?_⟩
  rw [e1, e2]
  decide

/-- Witness for C7: a store holding one record whose bytes are missing from
the disk, probed with an unknown name and with that record's name. -/
theorem download_distinct_not_found_witness :
    download ⟨[], [⟨1, 1, "a.txt", "f1.txt", "uploads/f1.txt", 2, "text/plain", "6869", 10⟩], 1, 2⟩
      [] "nope.txt" ≠
    download ⟨[], [⟨1, 1, "a.txt", "f1.txt", "uploads/f1.txt", 2, "text/plain", "6869", 10⟩], 1, 2⟩
      [] "f1.txt" :=
  (download_distinct_not_found
    ⟨[], [⟨1, 1, "a.txt", "f1.txt", "uploads/f1.txt", 2, "text/plain", "6869", 10⟩], 1, 2⟩
    [] "nope.txt" "f1.txt"
    ⟨1, 1, "a.txt", "f1.txt", "uploads/f1.txt", 2, "text/plain", "6869", 10⟩
    (by decide) (by decide) (by decide)).2.2

/-- A successful registration (a 201 response) appends exactly the one fresh
row built from the request to the `users` table. -/
theorem register_success_shape (sha256h : String → String) (db : Db) (u e p : String)
    (h : ((register sha256h db u e p).2).status = 201) :
    (register sha256h db u e p).1 =
      { db with users := db.users ++ [⟨db.nextUserId, u, e, sha256h p⟩],
                nextUserId := db.nextUserId + 1 } := by
  unfold register createUser at h ⊢
  by_cases hemp : (decide (u = "") || decide (e = "") || decide (p = "")) = true
  · rw [if_pos hemp] at h
    simp at h
  · rw [if_neg hemp] at h ⊢
    by_cases hdup : (db.users.any (fun x => x.username == u || x.email == e)) = true
    · rw [if_pos hdup] at h
      simp at h
    · rw [if_neg hdup] at h ⊢

/-- C5: username and email are each globally unique: whenever a registration
succeeds, a second registration whose username or email collides with it
is answered with the 400 `Username or email already exists` conflict
response and leaves the user table unchanged (no second row, no crash),
for every starting state and every such pair of calls. -/
theorem register_duplicate_conflict (sha256h : String → String) (db : Db)
    (u e p u2 e2 p2 : String)
    (h1 : ((register sha256h db u e p).2).status = 201)
    (hdup : u2 = u ∨ e2 = e)
    (h2u : u2 ≠ "") (h2e : e2 ≠ "") (h2p : p2 ≠ "") :
    register sha256h ((register sha256h db u e p).1) u2 e2 p2 =
      ((register sha256h db u e p).1,
       ⟨400, Body.err "Username or email already exists"⟩) := by
  rw [register_success_shape sha256h db u e p h1]
  unfold register createUser
  rw [if_neg (by simp [h2u, h2e, h2p])]
  dsimp only
  have hone : ([(⟨db.nextUserId, u, e, sha256h p⟩ : UserRow)].any
      (fun x => x.username == u2 || x.email == e2)) = true := by
    simp only [List.any_cons, List.any_nil, Bool.or_false]
    rcases hdup with hu | he2
    · subst hu
      simp
    · subst he2
      simp
  have hcond : ((db.users ++ [(⟨db.nextUserId, u, e, sha256h p⟩ : UserRow)]).any
      (fun x => x.username == u2 || x.email == e2)) = true := by
    rw [List.any_append, hone, Bool.or_true]
  rw [if_pos hcond]

/-- Witness for C5: registering `alice` twice on an initially empty store
yields the conflict response the second time and keeps the single row. -/
theorem register_duplicate_conflict_witness :
    register (fun s => s ++ "#h")
        ((register (fun s => s ++ "#h") ⟨[], [], 1, 1⟩ "alice" "a@x.com" "pw1").1)
        "alice" "b@y.com" "pw2" =
      ((register (fun s => s ++ "#h") ⟨[], [], 1, 1⟩ "alice" "a@x.com" "pw1").1,
       ⟨400, Body.err "Username or email already exists"⟩) :=
  register_duplicate_conflict (fun s => s ++ "#h") ⟨[], [], 1, 1⟩
    "alice" "a@x.com" "pw1" "alice" "b@y.com" "pw2"
    (by decide) (Or.inl rfl) (by decide) (by decide) (by decide)

/-- C8: `getFilesByUserId` returns a permutation of exactly the File Records
owned by the user, ordered by upload time most recent first; in
particular, when the user owns two records inserted in sequence with
increasing upload times, the listing returns the two newest-first. -/
theorem getFilesByUserId_newest_first (db : Db) (uid : Nat) :
    List.Perm (getFilesByUserId db uid) (db.files.filter (fun f => f.user_id == uid)) ∧
    List.Sorted newestFirst (getFilesByUserId db uid) ∧
    (∀ r1 r2 : FileRow, db.files.filter (fun f => f.user_id == uid) = [r1, r2] →
      r1.uploaded_at < r2.uploaded_at → getFilesByUserId db uid = [r2, r1]) := by
  refine ⟨List.perm_insertionSort _ _, List.sorted_insertionSort _ _, ?_⟩
  intro r1 r2 hf hlt
  unfold getFilesByUserId
  rw [hf]
  simp only [List.insertionSort, List.orderedInsert]
  rw [if_neg (by exact fun hle => absurd hlt (Nat.not_lt.mpr hle))]

/-- Witness for C8: two sequential uploads by user 1 (upload times 10 then
11) are listed newest-first. -/
theorem getFilesByUserId_newest_first_witness :
    getFilesByUserId
      ⟨[⟨1, "alice", "a@x.com", "pw"⟩],
       [⟨1, 1, "a.txt", "f1.txt", "uploads/f1.txt", 2, "text/plain", "6869", 10⟩,
        ⟨2, 1, "b.txt", "f2.txt", "uploads/f2.txt", 1, "text/plain", "6a", 11⟩], 2, 3⟩ 1 =
      [⟨2, 1, "b.txt", "f2.txt", "uploads/f2.txt", 1, "text/plain", "6a", 11⟩,
       ⟨1, 1, "a.txt", "f1.txt", "uploads/f1.txt", 2, "text/plain", "6869", 10⟩] :=
  (getFilesByUserId_newest_first
    ⟨[⟨1, "alice", "a@x.com", "pw"⟩],
     [⟨1, 1, "a.txt", "f1.txt", "uploads/f1.txt", 2, "text/plain", "6869", 10⟩,
      ⟨2, 1, "b.txt", "f2.txt", "uploads/f2.txt", 1, "text/plain", "6a", 11⟩], 2, 3⟩ 1).2.2
    ⟨1, 1, "a.txt", "f1.txt", "uploads/f1.txt", 2, "text/plain", "6869", 10⟩
    ⟨2, 1, "b.txt", "f2.txt", "uploads/f2.txt", 1, "text/plain", "6a", 11⟩
    (by decide) (by decide)

/-- C10: in a successful single-file upload the returned descriptor's
`uploadedAt` is the fresh clock reading taken while constructing the
response (`clock 1`), not the `uploaded_at` value stored in the metadata
record (the insert-time reading `clock 0`); the file-listing operation
later returns the stored `clock 0`, so whenever the two clock readings
differ, the upload response and the listing disagree on the timestamp of
the same file. -/
theorem upload_response_timestamp_fresh (digest : Bytes → Bytes) (dbFault : Nat → Bool)
    (clock : Nat → Nat) (disk : Disk) (uid : Nat) (f : MulterFile) (db : Db)
    (user : UserRow) (bytes : Bytes)
    (hu : getUserById db uid = some user)
    (hr : diskRead disk f.path = some bytes)
    (hf : dbFault 0 = false)
    (hempty : db.files = []) :
    ∃ d rec,
      uploadHandler digest dbFault clock disk (some uid) [f] db =
        ({ db with files := [rec], nextFileId := db.nextFileId + 1 },
         ⟨201, Body.uploaded [d]⟩) ∧
      d.uploadedAt = clock 1 ∧ rec.uploaded_at = clock 0 ∧ d.id = rec.id ∧
      listFiles { db with files := [rec], nextFileId := db.nextFileId + 1 } uid =
        ⟨200, Body.fileList [⟨rec.id, rec.original_name, rec.filename, rec.file_size,
          rec.mime_type, rec.file_hash, clock 0⟩]⟩ ∧
      (clock 0 ≠ clock 1 → d.uploadedAt ≠ rec.uploaded_at) := by
  refine ⟨⟨db.nextFileId, f.originalname, f.filename, f.size, f.mimetype,
      toHexLower (digest bytes), clock 1⟩,
    ⟨db.nextFileId, uid, f.originalname, f.filename, f.path, f.size, f.mimetype,
      toHexLower (digest bytes), clock 0⟩, ?_, rfl, rfl, rfl, ?_, ?_⟩
  · unfold uploadHandler
    dsimp only
    rw [hu]
    dsimp only
    rw [if_neg (by simp)]
    unfold processFiles
    rw [hr]
    dsimp only
    rw [if_neg (by simp [hf])]
    unfold createFile processFiles
    simp [hempty]
  · unfold listFiles
    rw [show getUserById ⟨db.users, [⟨db.nextFileId, uid, f.originalname, f.filename,
          f.path, f.size, f.mimetype, toHexLower (digest bytes), clock 0⟩],
          db.nextUserId, db.nextFileId + 1⟩ uid = some user from hu]
    unfold getFilesByUserId
    simp [List.insertionSort]
  · exact fun hne hc => hne hc.symm

/-- Witness for C10: with insert clock 10 and response clock 11 the upload
response reports timestamp 11 for the file while the listing later reports
the stored timestamp 10. -/
theorem upload_response_timestamp_fresh_witness :
    ∃ d rec,
      uploadHandler (fun b => b) (fun _ => false) (fun k => k + 10)
          [("uploads/f1.txt", [104, 105])] (some 1)
          [⟨"files", "a.txt", "text/plain", "f1.txt", "uploads/f1.txt", 2⟩]
          ⟨[⟨1, "alice", "a@x.com", "pw"⟩], [], 2, 1⟩ =
        (⟨[⟨1, "alice", "a@x.com", "pw"⟩], [rec], 2, 2⟩,
         ⟨201, Body.uploaded [d]⟩) ∧
      d.uploadedAt = 11 ∧ rec.uploaded_at = 10 ∧ d.id = rec.id ∧
      listFiles ⟨[⟨1, "alice", "a@x.com", "pw"⟩], [rec], 2, 2⟩ 1 =
        ⟨200, Body.fileList [⟨rec.id, rec.original_name, rec.filename, rec.file_size,
          rec.mime_type, rec.file_hash, 10⟩]⟩ ∧
      ((10 : Nat) ≠ 11 → d.uploadedAt ≠ rec.uploaded_at) :=
  upload_response_timestamp_fresh (fun b => b) (fun _ => false) (fun k => k + 10)
    [("uploads/f1.txt", [104, 105])] 1
    ⟨"files", "a.txt", "text/plain", "f1.txt", "uploads/f1.txt", 2⟩
    ⟨[⟨1, "alice", "a@x.com", "pw"⟩], [], 2, 1⟩
    ⟨1, "alice", "a@x.com", "pw"⟩ [104, 105]
    (by decide) (by decide) (by decide) (by decide)

/-- C1 counterexample: a two-file batch for a known user in which the second
file's metadata insert fails. The whole request fails with the generic
500 response, yet the metadata record created for the first file of the
batch remains in the store — so a record created earlier in the same
request does remain, contradicting the claim. -/
theorem upload_partial_batch_record_remains :
    uploadRoute (fun b => b) (fun k => k == 1) (fun k => k + 10) "uploads"
        ["f1.txt", "f2.txt"] (some 1)
        [⟨"files", "a.txt", "text/plain", [104, 105]⟩, ⟨"files", "b.txt", "text/plain", [106]⟩]
        [] ⟨[⟨1, "alice", "a@x.com", "pw"⟩], [], 2, 1⟩ =
      ([("uploads/f2.txt", [106]), ("uploads/f1.txt", [104, 105])],
       ⟨[⟨1, "alice", "a@x.com", "pw"⟩],
        [⟨1, 1, "a.txt", "f1.txt", "uploads/f1.txt", 2, "text/plain", "6869", 10⟩], 2, 2⟩,
       ⟨500, Body.err "File upload failed"⟩) := by
  decide

/-- C1 (amended): when a later file of a multi-file batch fails its per-file
step (hashing — the stored bytes being unreadable — or the metadata
insert), the whole request fails with the generic 500 upload-failure
response, but the metadata record already created for the earlier file of
the batch remains in the store; there is no rollback. -/
theorem upload_batch_failure_keeps_earlier_records (digest : Bytes → Bytes)
    (dbFault : Nat → Bool) (clock : Nat → Nat) (disk : Disk) (uid : Nat)
    (f1 f2 : MulterFile) (db : Db) (user : UserRow) (b1 : Bytes)
    (hu : getUserById db uid = some user)
    (h1 : diskRead disk f1.path = some b1)
    (hf0 : dbFault 0 = false)
    (hfail : diskRead disk f2.path = none ∨ dbFault 1 = true) :
    uploadHandler digest dbFault clock disk (some uid) [f1, f2] db =
      ({ db with
          files := db.files ++ [⟨db.nextFileId, uid, f1.originalname, f1.filename, f1.path,
            f1.size, f1.mimetype, toHexLower (digest b1), clock 0⟩],
          nextFileId := db.nextFileId + 1 },
       ⟨500, Body.err "File upload failed"⟩) := by
  unfold uploadHandler
  dsimp only
  rw [hu]
  dsimp only
  rw [if_neg (by simp)]
  unfold processFiles
  rw [h1]
  dsimp only
  rw [if_neg (by simp [hf0])]
  unfold createFile
  dsimp only
  rcases hfail with h2 | h2
  · unfold processFiles
    rw [h2]
  · unfold processFiles
    cases hread : diskRead disk f2.path with
    | none => simp
    | some b2 => simp [h2]

/-- Witness for C1's amended statement: the concrete two-file batch of the
counterexample, with the earlier record surviving the failed request. -/
theorem upload_batch_failure_keeps_earlier_records_witness :
    uploadHandler (fun b => b) (fun k => k == 1) (fun k => k + 10)
        [("uploads/f2.txt", [106]), ("uploads/f1.txt", [104, 105])] (some 1)
        [⟨"files", "a.txt", "text/plain", "f1.txt", "uploads/f1.txt", 2⟩,
         ⟨"files", "b.txt", "text/plain", "f2.txt", "uploads/f2.txt", 1⟩]
        ⟨[⟨1, "alice", "a@x.com", "pw"⟩], [], 2, 1⟩ =
      (⟨[⟨1, "alice", "a@x.com", "pw"⟩],
        [⟨1, 1, "a.txt", "f1.txt", "uploads/f1.txt", 2, "text/plain", "6869", 10⟩], 2, 2⟩,
       ⟨500, Body.err "File upload failed"⟩) :=
  upload_batch_failure_keeps_earlier_records (fun b => b) (fun k => k == 1)
    (fun k => k + 10)
    [("uploads/f2.txt", [106]), ("uploads/f1.txt", [104, 105])] 1
    ⟨"files", "a.txt", "text/plain", "f1.txt", "uploads/f1.txt", 2⟩
    ⟨"files", "b.txt", "text/plain", "f2.txt", "uploads/f2.txt", 1⟩
    ⟨[⟨1, "alice", "a@x.com", "pw"⟩], [], 2, 1⟩
    ⟨1, "alice", "a@x.com", "pw"⟩ [104, 105]
    (by decide) (by decide) (by decide) (Or.inr (by decide))

/-- A successful multer pass writes one file to disk per part of the batch. -/
theorem runMulter_ok_length (up : String) :
    ∀ (rfs : List ReqFile) (names : List String) (disk disk1 : Disk)
      (ms : List MulterFile),
      runMulter up rfs names disk = (disk1, Except.ok ms) →
      disk1.length = disk.length + rfs.length := by
  intro rfs
  induction rfs with
  | nil =>
    intro names disk disk1 ms h
    simp only [runMulter, Prod.mk.injEq] at h
    rw [← h.1]
    simp
  | cons f fs ih =>
    intro names disk disk1 ms h
    cases names with
    | nil => simp [runMulter] at h
    | cons n ns =>
      simp only [runMulter] at h
      cases hff : fileFilter f with
      | error e => rw [hff] at h; simp at h
      | ok u =>
        rw [hff] at h
        dsimp only at h
        rcases hrec : runMulter up fs ns (diskWrite disk (storagePath up n) f.bytes) with
          ⟨disk2, res2⟩
        rw [hrec] at h
        cases res2 with
        | ok ms2 =>
          simp only [Prod.mk.injEq] at h
          have hlen := ih ns (diskWrite disk (storagePath up n) f.bytes) disk2 ms2 hrec
          rw [← h.1, hlen]
          simp [diskWrite]
          omega
        | error e => simp at h

/-- C2 counterexample: an upload request with no user identifier and one
valid file part. The request is rejected with the 400 missing-user-id
response, yet the file's bytes have already been written to the content
store by the middleware: the disk gained an entry although the claim says
no bytes are written for such a request. -/
theorem upload_missing_user_bytes_written :
    uploadRoute (fun b => b) (fun _ => false) (fun k => k + 10) "uploads" ["f1.txt"]
        none [⟨"files", "a.txt", "text/plain", [104, 105]⟩]
        [] ⟨[⟨1, "alice", "a@x.com", "pw"⟩], [], 2, 1⟩ =
      ([("uploads/f1.txt", [104, 105])],
       ⟨[⟨1, "alice", "a@x.com", "pw"⟩], [], 2, 1⟩,
       ⟨400, Body.err "User ID is required"⟩) := by
  decide

/-- C2 (amended): a missing or unknown user identifier rejects the upload
request (400 for a missing id, 401 for an unknown one) with no metadata
recorded and the database unchanged, but only after the multer middleware
has already written every admitted file of the batch to the content
store: the resulting disk is the middleware's output, holding one new
entry per file of the batch. -/
theorem upload_auth_checked_after_store_write (digest : Bytes → Bytes)
    (dbFault : Nat → Bool) (clock : Nat → Nat) (up : String) (names : List String)
    (userId : Option Nat) (reqFiles : List ReqFile) (disk disk1 : Disk)
    (ms : List MulterFile) (db : Db)
    (hm : runMulter up reqFiles names disk = (disk1, Except.ok ms))
    (hauth : userId = none ∨ ∃ uid, userId = some uid ∧ getUserById db uid = none) :
    (uploadRoute digest dbFault clock up names userId reqFiles disk db =
       (disk1, db, ⟨400, Body.err "User ID is required"⟩) ∨
     uploadRoute digest dbFault clock up names userId reqFiles disk db =
       (disk1, db, ⟨401, Body.err "Invalid user"⟩)) ∧
    disk1.length = disk.length + reqFiles.length := by
  refine ⟨?_, runMulter_ok_length up reqFiles names disk disk1 ms hm⟩
  unfold uploadRoute
  rw [hm]
  unfold uploadHandler
  rcases hauth with h | ⟨uid, huid, hno⟩
  · subst h
    exact Or.inl rfl
  · subst huid
    dsimp only
    rw [hno]
    exact Or.inr rfl

/-- Witness for C2's amended statement: the counterexample's one-file batch,
with the byte count of the disk increasing by one entry. -/
theorem upload_auth_checked_after_store_write_witness :
    (uploadRoute (fun b => b) (fun _ => false) (fun k => k + 10) "uploads" ["f1.txt"]
         none [⟨"files", "a.txt", "text/plain", [104, 105]⟩]
         [] ⟨[⟨1, "alice", "a@x.com", "pw"⟩], [], 2, 1⟩ =
       ([("uploads/f1.txt", [104, 105])],
        ⟨[⟨1, "alice", "a@x.com", "pw"⟩], [], 2, 1⟩,
        ⟨400, Body.err "User ID is required"⟩) ∨
     uploadRoute (fun b => b) (fun _ => false) (fun k => k + 10) "uploads" ["f1.txt"]
         none [⟨"files", "a.txt", "text/plain", [104, 105]⟩]
         [] ⟨[⟨1, "alice", "a@x.com", "pw"⟩], [], 2, 1⟩ =
       ([("uploads/f1.txt", [104, 105])],
        ⟨[⟨1, "alice", "a@x.com", "pw"⟩], [], 2, 1⟩,
        ⟨401, Body.err "Invalid user"⟩)) ∧
    ([("uploads/f1.txt", [104, 105])] : Disk).length = ([] : Disk).length + 1 :=
  upload_auth_checked_after_store_write (fun b => b) (fun _ => false) (fun k => k + 10)
    "uploads" ["f1.txt"] none [⟨"files", "a.txt", "text/plain", [104, 105]⟩]
    [] [("uploads/f1.txt", [104, 105])]
    [⟨"files", "a.txt", "text/plain", "f1.txt", "uploads/f1.txt", 2⟩]
    ⟨[⟨1, "alice", "a@x.com", "pw"⟩], [], 2, 1⟩
    (by decide) (Or.inl rfl)

/-- `createFile` written out as the pair it returns. -/
theorem createFile_pair (db : Db) (userId : Nat) (origName fname fpath : String)
    (fsize : Nat) (mtype fhash : String) (now : Nat) :
    createFile db userId origName fname fpath fsize mtype fhash now =
      (⟨db.users, db.files ++ [⟨db.nextFileId, userId, origName, fname, fpath, fsize,
          mtype, fhash, now⟩], db.nextUserId, db.nextFileId + 1⟩,
       ⟨db.nextFileId, userId, origName, fname, fpath, fsize, mtype, fhash, now⟩) := rfl

/-- A path written by the multer pass only through names other than `q`
leaves the content stored at `q` unchanged. -/
theorem runMulter_preserves (up : String) :
    ∀ (rfs : List ReqFile) (names : List String) (disk disk1 : Disk)
      (res : Except String (List MulterFile)) (q : String),
      runMulter up rfs names disk = (disk1, res) →
      (∀ n ∈ names, storagePath up n ≠ q) →
      diskRead disk1 q = diskRead disk q := by
  intro rfs
  induction rfs with
  | nil =>
    intro names disk disk1 res q h hq
    simp only [runMulter, Prod.mk.injEq] at h
    rw [← h.1]
  | cons f fs ih =>
    intro names disk disk1 res q h hq
    cases names with
    | nil =>
      simp only [runMulter, Prod.mk.injEq] at h
      rw [← h.1]
    | cons n ns =>
      simp only [runMulter] at h
      cases hff : fileFilter f with
      | error e =>
        rw [hff] at h
        simp only [Prod.mk.injEq] at h
        rw [← h.1]
      | ok u =>
        rw [hff] at h
        dsimp only at h
        rcases hrec : runMulter up fs ns (diskWrite disk (storagePath up n) f.bytes) with
          ⟨disk2, res2⟩
        rw [hrec] at h
        have hq' : ∀ m ∈ ns, storagePath up m ≠ q :=
          fun m hm => hq m (List.mem_cons_of_mem _ hm)
        have hpres := ih ns (diskWrite disk (storagePath up n) f.bytes) disk2 res2 q hrec hq'
        have hpq : storagePath up n ≠ q := hq n (List.mem_cons_self _ _)
        have hstep : diskRead (diskWrite disk (storagePath up n) f.bytes) q = diskRead disk q := by
          simp [diskWrite, diskRead, hpq]
        cases res2 with
        | ok ms2 =>
          simp only [Prod.mk.injEq] at h
          rw [← h.1, hpres, hstep]
        | error e =>
          simp only [Prod.mk.injEq] at h
          rw [← h.1, hpres, hstep]

/-- After a successful multer pass over pairwise-distinct storage paths, each
produced file descriptor points at its own storage path, on which the
final disk holds bytes of exactly the size the descriptor records. -/
theorem runMulter_stored (up : String) :
    ∀ (rfs : List ReqFile) (names : List String) (disk disk1 : Disk)
      (ms : List MulterFile),
      (names.map (storagePath up)).Nodup →
      runMulter up rfs names disk = (disk1, Except.ok ms) →
      ∀ m ∈ ms, m.path = storagePath up m.filename ∧
        ∃ b, diskRead disk1 m.path = some b ∧ m.size = b.length := by
  intro rfs
  induction rfs with
  | nil =>
    intro names disk disk1 ms hnd h
    simp only [runMulter, Prod.mk.injEq, Except.ok.injEq] at h
    intro m hm
    rw [← h.2] at hm
    simp at hm
  | cons f fs ih =>
    intro names disk disk1 ms hnd h
    cases names with
    | nil => simp [runMulter] at h
    | cons n ns =>
      simp only [runMulter] at h
      cases hff : fileFilter f with
      | error e => rw [hff] at h; simp at h
      | ok u =>
        rw [hff] at h
        dsimp only at h
        rcases hrec : runMulter up fs ns (diskWrite disk (storagePath up n) f.bytes) with
          ⟨disk2, res2⟩
        rw [hrec] at h
        cases res2 with
        | error e => simp at h
        | ok ms2 =>
          simp only [Prod.mk.injEq, Except.ok.injEq] at h
          obtain ⟨hd, hms⟩ := h
          subst hd
          rw [← hms]
          have hnd' : (ns.map (storagePath up)).Nodup := by
            rw [List.map_cons] at hnd
            exact hnd.of_cons
          intro m hm
          rcases List.mem_cons.mp hm with hm0 | hmrest
          · subst hm0
            refine ⟨rfl, f.bytes, ?_, rfl⟩
            have hnot : ∀ n2 ∈ ns, storagePath up n2 ≠ storagePath up n := by
              intro n2 hn2 hceq
              rw [List.map_cons] at hnd
              exact (List.nodup_cons.mp hnd).1 (hceq ▸ List.mem_map_of_mem _ hn2)
            have := runMulter_preserves up fs ns
              (diskWrite disk (storagePath up n) f.bytes) disk2 (Except.ok ms2)
              (storagePath up n) hrec hnot
            rw [this]
            simp [diskWrite, diskRead]
          · exact ih ns (diskWrite disk (storagePath up n) f.bytes) disk2 ms2 hnd' hrec m hmrest

/-- Every descriptor produced by a successful per-file pipeline pass stems
from a file of the batch, records that file's generated name and size,
and carries as hash the hex rendering of the digest of the bytes read
back from disk at that file's storage path. -/
theorem processFiles_descs (digest : Bytes → Bytes) (dbFault : Nat → Bool)
    (clock : Nat → Nat) (disk : Disk) (uid : Nat) :
    ∀ (ms : List MulterFile) (k : Nat) (db db1 : Db) (ds : List Descriptor),
      processFiles digest dbFault clock disk uid k ms db = (db1, some ds) →
      ∀ d ∈ ds, ∃ m, m ∈ ms ∧ d.filename = m.filename ∧ d.size = m.size ∧
        ∃ b, diskRead disk m.path = some b ∧ d.hash = toHexLower (digest b) := by
  intro ms
  induction ms with
  | nil =>
    intro k db db1 ds h
    simp only [processFiles, Prod.mk.injEq, Option.some.injEq] at h
    intro d hd
    rw [← h.2] at hd
    simp at hd
  | cons m0 rest ih =>
    intro k db db1 ds h
    unfold processFiles at h
    cases hread : diskRead disk m0.path with
    | none => rw [hread] at h; simp at h
    | some b0 =>
      rw [hread] at h
      dsimp only at h
      cases hfk : dbFault k with
      | true => rw [if_pos (by rw [hfk])] at h; simp at h
      | false =>
        rw [if_neg (by rw [hfk]; exact Bool.false_ne_true)] at h
        rw [createFile_pair] at h
        dsimp only at h
        rcases hpr : processFiles digest dbFault clock disk uid (k + 1) rest
            ⟨db.users, db.files ++ [⟨db.nextFileId, uid, m0.originalname, m0.filename,
              m0.path, m0.size, m0.mimetype, toHexLower (digest b0), clock (2 * k)⟩],
             db.nextUserId, db.nextFileId + 1⟩ with ⟨db2, dso⟩
        rw [hpr] at h
        cases dso with
        | none => simp at h
        | some ds2 =>
          simp only [Prod.mk.injEq, Option.some.injEq] at h
          obtain ⟨hdb, hds⟩ := h
          intro d hd
          rw [← hds] at hd
          rcases List.mem_cons.mp hd with hd0 | hdrest
          · subst hd0
            exact ⟨m0, List.mem_cons_self _ _, rfl, rfl, b0, hread, rfl⟩
          · obtain ⟨m, hmmem, hrest⟩ := ih (k + 1)
              ⟨db.users, db.files ++ [⟨db.nextFileId, uid, m0.originalname, m0.filename,
                m0.path, m0.size, m0.mimetype, toHexLower (digest b0), clock (2 * k)⟩],
               db.nextUserId, db.nextFileId + 1⟩ db2 ds2 hpr d hdrest
            exact ⟨m, List.mem_cons_of_mem _ hmmem, hrest⟩

/-- Each character emitted by `hexDigit` on a value below 16 is a decimal
digit or a lowercase letter between `a` and `f`. -/
theorem hexDigit_char (m : Nat) (h : m < 16) :
    (hexDigit m).isDigit = true ∨ ('a' ≤ hexDigit m ∧ hexDigit m ≤ 'f') := by
  interval_cases m <;> decide

/-- Every character of a rendered digest is a digit or a lowercase hex
letter: the digest string is lowercase hexadecimal. -/
theorem toHexLower_chars (bs : Bytes) :
    ∀ c ∈ (toHexLower bs).data, c.isDigit = true ∨ ('a' ≤ c ∧ c ≤ 'f') := by
  intro c hc
  have hc2 : c ∈ (bs.map byteToHex).flatten := hc
  obtain ⟨l, hl, hcl⟩ := List.mem_flatten.mp hc2
  obtain ⟨b, hb, rfl⟩ := List.mem_map.mp hl
  simp only [byteToHex, List.mem_cons, List.not_mem_nil, or_false] at hcl
  rcases hcl with rfl | rfl
  · exact hexDigit_char _ (Nat.mod_lt _ (by norm_num))
  · exact hexDigit_char _ (Nat.mod_lt _ (by norm_num))

/-- C3: in a successful upload (201 response, over pairwise-distinct
generated storage paths), every returned descriptor records as `size` the
length of the bytes stored on disk under its storage name, and as `hash`
the digest of those stored bytes — the bytes read back from the final
disk, not the transfer buffer — rendered as a lowercase hex string. -/
theorem upload_descriptor_integrity (digest : Bytes → Bytes) (dbFault : Nat → Bool)
    (clock : Nat → Nat) (up : String) (names : List String) (userId : Option Nat)
    (reqFiles : List ReqFile) (disk : Disk) (db : Db) (disk1 : Disk) (db1 : Db)
    (ds : List Descriptor)
    (hnd : (names.map (storagePath up)).Nodup)
    (hroute : uploadRoute digest dbFault clock up names userId reqFiles disk db =
      (disk1, db1, ⟨201, Body.uploaded ds⟩)) :
    ∀ d ∈ ds,
      (∃ b, diskRead disk1 (storagePath up d.filename) = some b ∧
        d.size = b.length ∧ d.hash = toHexLower (digest b)) ∧
      (∀ c ∈ d.hash.data, c.isDigit = true ∨ ('a' ≤ c ∧ c ≤ 'f')) := by
  unfold uploadRoute at hroute
  rcases hm : runMulter up reqFiles names disk with ⟨diskm, resm⟩
  rw [hm] at hroute
  cases resm with
  | error e => simp at hroute
  | ok ms =>
    dsimp only at hroute
    rcases hh : uploadHandler digest dbFault clock diskm userId ms db with ⟨dbh, resph⟩
    rw [hh] at hroute
    simp only [Prod.mk.injEq] at hroute
    obtain ⟨hdisk, hdb, hresp⟩ := hroute
    subst hdisk
    unfold uploadHandler at hh
    cases userId with
    | none =>
      simp only [Prod.mk.injEq] at hh
      rw [← hh.2] at hresp
      simp at hresp
    | some uid =>
      dsimp only at hh
      cases hgu : getUserById db uid with
      | none =>
        rw [hgu] at hh
        simp only [Prod.mk.injEq] at hh
        rw [← hh.2] at hresp
        simp at hresp
      | some user =>
        rw [hgu] at hh
        dsimp only at hh
        by_cases hememp : ms.isEmpty = true
        · rw [if_pos hememp] at hh
          simp only [Prod.mk.injEq] at hh
          rw [← hh.2] at hresp
          simp at hresp
        · rw [if_neg hememp] at hh
          rcases hp : processFiles digest dbFault clock diskm uid 0 ms db with ⟨dbp, dso⟩
          rw [hp] at hh
          cases dso with
          | none =>
            simp only [Prod.mk.injEq] at hh
            rw [← hh.2] at hresp
            simp at hresp
          | some ds0 =>
            simp only [Prod.mk.injEq] at hh
            rw [← hh.2] at hresp
            simp only [Response.mk.injEq, Body.uploaded.injEq, true_and] at hresp
            intro d hd
            rw [← hresp] at hd
            obtain ⟨m, hmmem, hfn, hsz, b1, hb1, hhash⟩ :=
              processFiles_descs digest dbFault clock diskm uid ms 0 db dbp ds0 hp d hd
            obtain ⟨hpath, b2, hb2, hszb⟩ :=
              runMulter_stored up reqFiles names disk diskm ms hnd hm m hmmem
            have hbb : b1 = b2 := by
              rw [hb1] at hb2
              exact Option.some.inj hb2
            refine ⟨⟨b1, ?_, ?_, ?_⟩, ?_⟩
            · rw [hfn, ← hpath]
              exact hb1
            · rw [hsz, hszb, hbb]
            · exact hhash
            · rw [hhash]
              exact toHexLower_chars (digest b1)

/-- Witness for C3: the concrete one-file upload of bytes `[104, 105]`; the
stored bytes are read back, their length is the recorded size and their
rendered digest the recorded hash. -/
theorem upload_descriptor_integrity_witness :
    ∃ b, diskRead [("uploads/f1.txt", [104, 105])]
        (storagePath "uploads" ((⟨1, "a.txt", "f1.txt", 2, "text/plain", "6869", 11⟩ :
          Descriptor).filename)) = some b ∧
      (⟨1, "a.txt", "f1.txt", 2, "text/plain", "6869", 11⟩ : Descriptor).size = b.length ∧
      (⟨1, "a.txt", "f1.txt", 2, "text/plain", "6869", 11⟩ : Descriptor).hash =
        toHexLower ((fun x => x) b) :=
  (upload_descriptor_integrity (fun x => x) (fun _ => false) (fun k => k + 10)
    "uploads" ["f1.txt"] (some 1) [⟨"files", "a.txt", "text/plain", [104, 105]⟩]
    [] ⟨[⟨1, "alice", "a@x.com", "pw"⟩], [], 2, 1⟩
    [("uploads/f1.txt", [104, 105])]
    ⟨[⟨1, "alice", "a@x.com", "pw"⟩],
     [⟨1, 1, "a.txt", "f1.txt", "uploads/f1.txt", 2, "text/plain", "6869", 10⟩], 2, 2⟩
    [⟨1, "a.txt", "f1.txt", 2, "text/plain", "6869", 11⟩]
    (by decide) (by decide)
    ⟨1, "a.txt", "f1.txt", 2, "text/plain", "6869", 11⟩ (by decide)).1

end NikServer
